import Mathlib

/-!
Verification development for the xf86-input-libinput event-translation and
configuration-synchronization engine (src/libinput.c).

The C source is shallowly embedded: pure helpers become Lean functions,
the stateful touch handler becomes explicit state passing over a state
record, unsigned 32-bit machine arithmetic is modelled on Nat with
explicit reduction modulo 2 ^ 32 where the C code can wrap, and the
external libinput device (a capability-query and configuration oracle)
is modelled as a record of its observable query results.
-/

namespace XF86Libinput

/-! ## Constants

Values of the macros used by src/libinput.c: button codes from
linux/input.h, the slot bound and keycode offset defined in the file
itself, and the libinput configuration enum/bitmask values from
libinput.h (external header).
-/

def BTN_LEFT : Nat := 272
def BTN_RIGHT : Nat := 273
def BTN_MIDDLE : Nat := 274
def BTN_SIDE : Nat := 275

def TOUCH_MAX_SLOTS : Nat := 15
def XORG_KEYCODE_OFFSET : Nat := 8
def TOUCH_AXIS_MAX : Nat := 0xffff

/-- Modulus of the unsigned int arithmetic used by the driver. -/
def U32 : Nat := 2 ^ 32

/-! ## Button mapping (btn_linux2xorg / btn_xorg2linux)

Both C functions are switch statements over an unsigned int argument
whose default branches compute with unsigned wrap-around arithmetic.
An unsigned C expression such as 8 + b - BTN_SIDE is modelled on Nat
as addition of 2 ^ 32 before the subtraction followed by reduction
modulo 2 ^ 32; for b < 2 ^ 32 this is exactly the value of the C
expression.
-/

/-- Embeds btn_linux2xorg: switch on the native (linux) button code;
the default branch is the unsigned value of 8 + b - BTN_SIDE. -/
def btn_linux2xorg (b : Nat) : Nat :=
  if b = 0 then 0
  else if b = BTN_LEFT then 1
  else if b = BTN_MIDDLE then 2
  else if b = BTN_RIGHT then 3
  else (8 + b + (U32 - BTN_SIDE)) % U32

/-- Embeds btn_xorg2linux: switch on the consumer (xorg) button number;
the default branch is the unsigned value of b - 8 + BTN_SIDE. -/
def btn_xorg2linux (b : Nat) : Nat :=
  if b = 0 then 0
  else if b = 1 then BTN_LEFT
  else if b = 2 then BTN_MIDDLE
  else if b = 3 then BTN_RIGHT
  else (b + (U32 - 8) + BTN_SIDE) % U32

/-! ## Button event handling (xf86libinput_handle_button) -/

/-- A pointer button event as read from libinput: the native button
code and whether the state is LIBINPUT_BUTTON_STATE_PRESSED. -/
structure ButtonEvent where
  button : Nat
  pressed : Bool
deriving DecidableEq, Repr

/-- Embeds xf86libinput_handle_button: the (button, is_press) pair
passed to xf86PostButtonEvent. -/
def xf86libinput_handle_button (e : ButtonEvent) : Nat × Bool :=
  (btn_linux2xorg e.button, e.pressed)

/-! ## Scroll axis handling (xf86libinput_handle_axis)

Axis values and discrete step counts are delivered by libinput as
doubles; they are modelled as rationals, over which the single
multiplication by the integer step distance performed by the handler
is exact (as it is in double arithmetic for the integral discrete
step counts involved).
-/

/-- The axis sources distinguished by the switch in the handler; a
source other than the three accepted ones falls into the default
branch. -/
inductive AxisSource where
  | finger
  | wheel
  | continuous
  | other
deriving DecidableEq, Repr

/-- A pointer axis event: the source, and per axis whether the event
carries the axis together with its linear value and its discrete step
count. -/
structure AxisEvent where
  source : AxisSource
  has_vertical : Bool
  vertical_value : ℚ
  vertical_discrete : ℚ
  has_horizontal : Bool
  horizontal_value : ℚ
  horizontal_discrete : ℚ
deriving DecidableEq, Repr

/-- The valuator mask posted by the axis handler: valuator 3 carries
the vertical scroll delta, valuator 2 the horizontal one, when the
event has the axis. -/
structure AxisMask where
  vertical : Option ℚ
  horizontal : Option ℚ
deriving DecidableEq, Repr

/-- Embeds xf86libinput_handle_axis with the step distances
scroll.vdist and scroll.hdist of the per-device record: none means
the source was rejected and no event is posted; otherwise the posted
valuator mask. -/
def xf86libinput_handle_axis (vdist hdist : ℤ) (e : AxisEvent) :
    Option AxisMask :=
  match e.source with
  | AxisSource.other => none
  | _ =>
    let vval : Option ℚ :=
      if e.has_vertical then
        some (if e.source = AxisSource.wheel then
                e.vertical_discrete * (vdist : ℚ)
              else
                e.vertical_value)
      else none
    let hval : Option ℚ :=
      if e.has_horizontal then
        some (if e.source = AxisSource.wheel then
                e.horizontal_discrete * (hdist : ℚ)
              else
                e.horizontal_value)
      else none
    some { vertical := vval, horizontal := hval }

/-- The step distances set by xf86libinput_pre_init
(driver_data.scroll.vdist = 15, driver_data.scroll.hdist = 15);
nothing else in the file assigns them. -/
def pre_init_scroll_dist : ℤ × ℤ := (15, 15)

/-! ## Touch handling (xf86libinput_handle_touch)

The handler keeps two static (process-wide, shared across all
devices) variables: next_touchid, an unsigned int counter, and
touchids, an array of TOUCH_MAX_SLOTS unsigned ints, both
zero-initialized.  They are modelled as an explicit state record
threaded through the handler.  The slot index returned by
libinput_event_touch_get_slot is used directly as an array index, so
only slots below TOUCH_MAX_SLOTS are within the defined behavior of
the C code; the model types slots accordingly.
-/

instance : NeZero TOUCH_MAX_SLOTS := ⟨by decide⟩

/-- The touch event types dispatched to the handler by
xf86libinput_handle_event; cancel falls into the default branch of
the switch and produces no output. -/
inductive TouchEventType where
  | down
  | up
  | motion
  | cancel
deriving DecidableEq, Repr

/-- A touch event: the device it came from (determining where the
translated event is posted), its type, its slot, and its transformed
coordinates. -/
structure TouchEvent where
  device : Nat
  etype : TouchEventType
  slot : Fin TOUCH_MAX_SLOTS
  x : ℚ
  y : ℚ
deriving DecidableEq, Repr

/-- The static state of xf86libinput_handle_touch. -/
structure TouchState where
  next_touchid : Nat
  touchids : Fin TOUCH_MAX_SLOTS → Nat
deriving DecidableEq

/-- Zero-initialized static storage. -/
def initialTouchState : TouchState :=
  { next_touchid := 0, touchids := fun _ => 0 }

/-- The phase argument of xf86PostTouchEvent: XI_TouchBegin,
XI_TouchUpdate or XI_TouchEnd. -/
inductive TouchPhase where
  | begin
  | update
  | finish
deriving DecidableEq, Repr

/-- One call to xf86PostTouchEvent: the posting device, the
synthesized touch identity, the phase, and the coordinate valuators
(absent for touch-up). -/
structure PostedTouch where
  device : Nat
  touchid : Nat
  phase : TouchPhase
  coords : Option (ℚ × ℚ)
deriving DecidableEq, Repr

/-- Embeds one call of xf86libinput_handle_touch: on touch-down the
slot entry is assigned the counter value which is then incremented
(wrapping as an unsigned int), and the event is posted with the slot
entry; touch-up and touch-motion post the current slot entry; cancel
posts nothing. -/
def xf86libinput_handle_touch (st : TouchState) (e : TouchEvent) :
    TouchState × Option PostedTouch :=
  match e.etype with
  | TouchEventType.down =>
    let id := st.next_touchid
    ({ next_touchid := (st.next_touchid + 1) % U32,
       touchids := Function.update st.touchids e.slot id },
     some { device := e.device, touchid := id,
            phase := TouchPhase.begin, coords := some (e.x, e.y) })
  | TouchEventType.up =>
    (st, some { device := e.device, touchid := st.touchids e.slot,
                phase := TouchPhase.finish, coords := none })
  | TouchEventType.motion =>
    (st, some { device := e.device, touchid := st.touchids e.slot,
                phase := TouchPhase.update, coords := some (e.x, e.y) })
  | TouchEventType.cancel => (st, none)

/-- State after dispatching a sequence of touch events. -/
def touchRun (st : TouchState) (evs : List TouchEvent) : TouchState :=
  evs.foldl (fun s e => (xf86libinput_handle_touch s e).1) st

/-- The sequence of handler outputs along a sequence of touch
events. -/
def touchTrace (st : TouchState) : List TouchEvent → List (Option PostedTouch)
  | [] => []
  | e :: rest =>
    (xf86libinput_handle_touch st e).2 ::
      touchTrace (xf86libinput_handle_touch st e).1 rest

/-- The touch identity posted for one event from a given state, when
an event is posted at all. -/
def postedTouchId (st : TouchState) (e : TouchEvent) : Option Nat :=
  ((xf86libinput_handle_touch st e).2).map PostedTouch.touchid

/-- Number of touch-down events in a sequence. -/
def countDowns (evs : List TouchEvent) : Nat :=
  evs.countP (fun e => decide (e.etype = TouchEventType.down))

/-! ## The external libinput device

The libinput device handle is external to this module; the driver
interacts with it through capability queries, getters and setters.
It is modelled as a record of the observable results of those calls:
one field per getter, and for each setter a predicate telling for
which argument the set call reports LIBINPUT_CONFIG_STATUS_SUCCESS.
A failed set leaves the device unchanged, so a getter read back after
a failed set returns the same value as before, which is why one field
per getter suffices for the option-resolution paths below.

Enum and bitmask values from libinput.h:
LIBINPUT_CONFIG_SEND_EVENTS_ENABLED = 0, DISABLED = 1,
DISABLED_ON_EXTERNAL_MOUSE = 2; LIBINPUT_CONFIG_SCROLL_NO_SCROLL = 0,
2FG = 1, EDGE = 2, ON_BUTTON_DOWN = 4;
LIBINPUT_CONFIG_CLICK_METHOD_NONE = 0, BUTTON_AREAS = 1,
CLICKFINGER = 2.
-/

def SEND_EVENTS_ENABLED : Nat := 0
def SEND_EVENTS_DISABLED : Nat := 1
def SEND_EVENTS_DISABLED_ON_EXTERNAL_MOUSE : Nat := 2
def SCROLL_NO_SCROLL : Nat := 0
def SCROLL_2FG : Nat := 1
def SCROLL_EDGE : Nat := 2
def SCROLL_ON_BUTTON_DOWN : Nat := 4
def CLICK_METHOD_NONE : Nat := 0
def CLICK_METHOD_BUTTON_AREAS : Nat := 1
def CLICK_METHOD_CLICKFINGER : Nat := 2

/-- Observable behavior of one libinput device handle. -/
structure ExtDevice where
  tap_finger_count : Nat
  tap_enabled : Bool
  tap_set_ok : Bool → Bool
  tap_drag_lock_enabled : Bool
  tap_drag_lock_set_ok : Bool → Bool
  accel_available : Bool
  accel_speed : ℚ
  accel_set_ok : ℚ → Bool
  natural_scroll_available : Bool
  natural_scroll_enabled : Bool
  natural_scroll_set_ok : Bool → Bool
  sendevents_modes : Nat
  sendevents_mode : Nat
  sendevents_set_ok : Nat → Bool
  left_handed_available : Bool
  left_handed : Bool
  left_handed_set_ok : Bool → Bool
  scroll_methods : Nat
  scroll_method : Nat
  scroll_button : Nat
  scroll_button_set_ok : Nat → Bool
  click_methods : Nat
  click_method : Nat
  middle_emulation_available : Bool
  middle_emulation_default : Bool
  middle_emulation_enabled : Bool
  middle_emulation_set_ok : Bool → Bool
  halfkey_available : Bool
  halfkey_default : Bool
  halfkey_enabled : Bool
  halfkey_set_ok : Bool → Bool
  calibration_has_matrix : Bool
  calibration_matrix : Fin 6 → ℚ
  calibration_set_ok : List ℚ → Bool
  pointer_has_button : Nat → Bool

/-! ## Option resolution at device-open (xf86libinput_parse_*_option)

User-supplied configuration options are passed as Option values:
none when the option is not set, in which case the xf86Set*Option
helpers return the supplied default.  Textual options are modelled as
Lean strings; the strncasecmp(method, lit, strlen lit) comparisons of
the C code are case-insensitive prefix tests.  Float values are
modelled as rationals.
-/

/-- Embeds xf86libinput_parse_tap_option. -/
def xf86libinput_parse_tap_option (dev : ExtDevice) (opt : Option Bool) : Bool :=
  if dev.tap_finger_count = 0 then false
  else
    let tap := opt.getD dev.tap_enabled
    if dev.tap_set_ok tap then tap else dev.tap_enabled

/-- Embeds xf86libinput_parse_tap_drag_lock_option. -/
def xf86libinput_parse_tap_drag_lock_option (dev : ExtDevice) (opt : Option Bool) : Bool :=
  if dev.tap_finger_count = 0 then false
  else
    let drag_lock := opt.getD dev.tap_drag_lock_enabled
    if dev.tap_drag_lock_set_ok drag_lock then drag_lock
    else dev.tap_drag_lock_enabled

/-- Embeds xf86libinput_parse_accel_option. -/
def xf86libinput_parse_accel_option (dev : ExtDevice) (opt : Option ℚ) : ℚ :=
  if dev.accel_available = false then 0
  else
    let speed := opt.getD dev.accel_speed
    if dev.accel_set_ok speed then speed else dev.accel_speed

/-- Embeds xf86libinput_parse_natscroll_option. -/
def xf86libinput_parse_natscroll_option (dev : ExtDevice) (opt : Option Bool) : Bool :=
  if dev.natural_scroll_available = false then false
  else
    let natural_scroll := opt.getD dev.natural_scroll_enabled
    if dev.natural_scroll_set_ok natural_scroll then natural_scroll
    else dev.natural_scroll_enabled

/-- Embeds xf86libinput_parse_sendevents_option. -/
def xf86libinput_parse_sendevents_option (dev : ExtDevice) (opt : Option String) : Nat :=
  if dev.sendevents_modes = SEND_EVENTS_ENABLED then SEND_EVENTS_ENABLED
  else
    let mode :=
      match opt with
      | none => dev.sendevents_mode
      | some strmode =>
        if strmode = "enabled" then SEND_EVENTS_ENABLED
        else if strmode = "disabled" then SEND_EVENTS_DISABLED
        else if strmode = "disabled-on-external-mouse" then
          SEND_EVENTS_DISABLED_ON_EXTERNAL_MOUSE
        else dev.sendevents_mode
    if dev.sendevents_set_ok mode then mode else dev.sendevents_mode

/-- Embeds xf86libinput_parse_lefthanded_option. -/
def xf86libinput_parse_lefthanded_option (dev : ExtDevice) (opt : Option Bool) : Bool :=
  if dev.left_handed_available = false then false
  else
    let left_handed := opt.getD dev.left_handed
    if dev.left_handed_set_ok left_handed then left_handed
    else dev.left_handed

/-- Embeds xf86libinput_parse_scroll_option. -/
def xf86libinput_parse_scroll_option (dev : ExtDevice) (opt : Option String) : Nat :=
  if dev.scroll_methods = SCROLL_NO_SCROLL then SCROLL_NO_SCROLL
  else
    match opt with
    | none => dev.scroll_method
    | some method =>
      if (method.toLower).startsWith "twofinger" then SCROLL_2FG
      else if (method.toLower).startsWith "edge" then SCROLL_EDGE
      else if (method.toLower).startsWith "button" then SCROLL_ON_BUTTON_DOWN
      else if (method.toLower).startsWith "none" then SCROLL_NO_SCROLL
      else dev.scroll_method

/-- Embeds xf86libinput_parse_scrollbutton_option. -/
def xf86libinput_parse_scrollbutton_option (dev : ExtDevice) (opt : Option Nat) : Nat :=
  if dev.scroll_methods &&& SCROLL_ON_BUTTON_DOWN = 0 then 0
  else
    let b := btn_linux2xorg dev.scroll_button
    let scroll_button := opt.getD b
    if dev.scroll_button_set_ok (btn_xorg2linux scroll_button) then scroll_button
    else btn_linux2xorg dev.scroll_button

/-- Embeds xf86libinput_parse_clickmethod_option. -/
def xf86libinput_parse_clickmethod_option (dev : ExtDevice) (opt : Option String) : Nat :=
  if dev.click_methods = CLICK_METHOD_NONE then CLICK_METHOD_NONE
  else
    match opt with
    | none => dev.click_method
    | some method =>
      if (method.toLower).startsWith "buttonareas" then CLICK_METHOD_BUTTON_AREAS
      else if (method.toLower).startsWith "clickfinger" then CLICK_METHOD_CLICKFINGER
      else if (method.toLower).startsWith "none" then CLICK_METHOD_NONE
      else dev.click_method

/-- Embeds xf86libinput_parse_middleemulation_option; note that the
xf86SetBoolOption default here is the device default (not current)
enabled state. -/
def xf86libinput_parse_middleemulation_option (dev : ExtDevice) (opt : Option Bool) : Bool :=
  if dev.middle_emulation_available = false then false
  else
    let enabled := opt.getD dev.middle_emulation_default
    if dev.middle_emulation_set_ok enabled then enabled
    else dev.middle_emulation_enabled

/-- Embeds xf86libinput_parse_halfkey_option. -/
def xf86libinput_parse_halfkey_option (dev : ExtDevice) (opt : Option Bool) : Bool :=
  if dev.halfkey_available = false then false
  else
    let enabled := opt.getD dev.halfkey_default
    if dev.halfkey_set_ok enabled then enabled
    else dev.halfkey_enabled

/-- Embeds xf86libinput_parse_calibration_option.  The user string is
abstracted as the list of float values that its leading
whitespace-separated tokens convert to under sscanf with nine
conversions, so num_calibration = min 9 (length of that list).  The
result is the nine-element matrix_out array. -/
def xf86libinput_parse_calibration_option (dev : ExtDevice)
    (opt : Option (List ℚ)) : List ℚ :=
  if dev.calibration_has_matrix = false then [1, 0, 0, 0, 1, 0, 0, 0, 1]
  else
    let devm := (List.ofFn fun i : Fin 6 => dev.calibration_matrix i) ++ [0, 0, 1]
    match opt with
    | none => devm
    | some vals =>
      let num := min 9 vals.length
      if num ≠ 9 then devm
      else if dev.calibration_set_ok (vals.take 9) then vals.take 9
      else devm

/-! ## Property bridge (LibinputSetProperty*)

An X property write request carries a declared format, size and type
atom together with an untyped data buffer; a handler first checks
format, size and type and then casts the buffer to BOOL (one byte),
CARD32, or float.  The buffer is modelled by its three views, one per
cast the handlers perform; each handler reads only the view selected
by the type it has checked.  Return codes are the X codes used by the
handlers.
-/

/-- X server return codes appearing in the property handlers. -/
inductive XRet where
  | Success
  | BadMatch
  | BadValue
  | BadAccess
deriving DecidableEq, Repr

/-- Type atoms compared against by the handlers: XA_INTEGER,
XA_CARDINAL and the interned float type. -/
inductive PropType where
  | integer
  | cardinal
  | floatType
deriving DecidableEq, Repr

/-- An XIPropertyValue as seen by the handlers. -/
structure PropValue where
  format : Nat
  size : Nat
  vtype : PropType
  dataBytes : List Nat
  dataCards : List Nat
  dataFloats : List ℚ
deriving DecidableEq

/-- The per-device option set mutated by the property handlers
(struct options fields they assign). -/
structure Options where
  tapping : Nat
  tap_drag_lock : Nat
  matrix : List ℚ
  speed : ℚ
  natural_scrolling : Nat
  sendevents : Nat
  left_handed : Nat
  scroll_method : Nat
  scroll_button : Nat
  click_method : Nat
  middle_emulation : Nat
  halfkey : Nat
deriving DecidableEq

/-- One halving step per unit of fuel, accumulating the low bits. -/
def popcountAux : Nat → Nat → Nat
  | 0, _ => 0
  | fuel + 1, n => n % 2 + popcountAux fuel (n / 2)

/-- Number of set bits of a 32-bit value, the value of builtin
popcount on the unsigned int mode masks of the handlers. -/
def popcount (n : Nat) : Nat := popcountAux 32 n

/-- Whether driver_data has a live device, the condition tested by
xf86libinput_check_device (device ≠ NULL). -/
abbrev DevicePresent := Bool

/-- Embeds LibinputSetPropertyTap. -/
def LibinputSetPropertyTap (dev : ExtDevice) (present : DevicePresent)
    (val : PropValue) (checkonly : Bool) (opts : Options) : XRet × Options :=
  if val.format ≠ 8 ∨ val.size ≠ 1 ∨ val.vtype ≠ PropType.integer then
    (XRet.BadMatch, opts)
  else
    let data := val.dataBytes.headD 0
    if checkonly then
      if data ≠ 0 ∧ data ≠ 1 then (XRet.BadValue, opts)
      else if present = false then (XRet.BadMatch, opts)
      else if dev.tap_finger_count = 0 then (XRet.BadMatch, opts)
      else (XRet.Success, opts)
    else (XRet.Success, { opts with tapping := data })

/-- Embeds LibinputSetPropertyTapDragLock. -/
def LibinputSetPropertyTapDragLock (dev : ExtDevice) (present : DevicePresent)
    (val : PropValue) (checkonly : Bool) (opts : Options) : XRet × Options :=
  if val.format ≠ 8 ∨ val.size ≠ 1 ∨ val.vtype ≠ PropType.integer then
    (XRet.BadMatch, opts)
  else
    let data := val.dataBytes.headD 0
    if checkonly then
      if data ≠ 0 ∧ data ≠ 1 then (XRet.BadValue, opts)
      else if present = false then (XRet.BadMatch, opts)
      else if dev.tap_finger_count = 0 then (XRet.BadMatch, opts)
      else (XRet.Success, opts)
    else (XRet.Success, { opts with tap_drag_lock := data })

/-- Embeds LibinputSetPropertyCalibration. -/
def LibinputSetPropertyCalibration (dev : ExtDevice) (present : DevicePresent)
    (val : PropValue) (checkonly : Bool) (opts : Options) : XRet × Options :=
  if val.format ≠ 32 ∨ val.size ≠ 9 ∨ val.vtype ≠ PropType.floatType then
    (XRet.BadMatch, opts)
  else
    let data := val.dataFloats
    if checkonly then
      if data.getD 6 0 ≠ 0 ∨ data.getD 7 0 ≠ 0 ∨ data.getD 8 0 ≠ 1 then
        (XRet.BadValue, opts)
      else if present = false then (XRet.BadMatch, opts)
      else if dev.calibration_has_matrix = false then (XRet.BadMatch, opts)
      else (XRet.Success, opts)
    else (XRet.Success, { opts with matrix := data.take 9 })

/-- Embeds LibinputSetPropertyAccel. -/
def LibinputSetPropertyAccel (dev : ExtDevice) (present : DevicePresent)
    (val : PropValue) (checkonly : Bool) (opts : Options) : XRet × Options :=
  if val.format ≠ 32 ∨ val.size ≠ 1 ∨ val.vtype ≠ PropType.floatType then
    (XRet.BadMatch, opts)
  else
    let data := val.dataFloats.headD 0
    if checkonly then
      if data < -1 ∨ data > 1 then (XRet.BadValue, opts)
      else if present = false then (XRet.BadMatch, opts)
      else if dev.accel_available = false then (XRet.BadMatch, opts)
      else (XRet.Success, opts)
    else (XRet.Success, { opts with speed := data })

/-- Embeds LibinputSetPropertyNaturalScroll. -/
def LibinputSetPropertyNaturalScroll (dev : ExtDevice) (present : DevicePresent)
    (val : PropValue) (checkonly : Bool) (opts : Options) : XRet × Options :=
  if val.format ≠ 8 ∨ val.size ≠ 1 ∨ val.vtype ≠ PropType.integer then
    (XRet.BadMatch, opts)
  else
    let data := val.dataBytes.headD 0
    if checkonly then
      if data ≠ 0 ∧ data ≠ 1 then (XRet.BadValue, opts)
      else if present = false then (XRet.BadMatch, opts)
      else if dev.natural_scroll_available = false then (XRet.BadMatch, opts)
      else (XRet.Success, opts)
    else (XRet.Success, { opts with natural_scrolling := data })

/-- Embeds LibinputSetPropertySendEvents. -/
def LibinputSetPropertySendEvents (dev : ExtDevice) (present : DevicePresent)
    (val : PropValue) (checkonly : Bool) (opts : Options) : XRet × Options :=
  if val.format ≠ 8 ∨ val.size ≠ 2 ∨ val.vtype ≠ PropType.integer then
    (XRet.BadMatch, opts)
  else
    let data := val.dataBytes
    let modes :=
      (if data.getD 0 0 ≠ 0 then SEND_EVENTS_DISABLED else 0) |||
      (if data.getD 1 0 ≠ 0 then SEND_EVENTS_DISABLED_ON_EXTERNAL_MOUSE else 0)
    if checkonly then
      if present = false then (XRet.BadMatch, opts)
      else if modes ||| dev.sendevents_modes ≠ dev.sendevents_modes then
        (XRet.BadValue, opts)
      else (XRet.Success, opts)
    else (XRet.Success, { opts with sendevents := modes })

/-- Embeds LibinputSetPropertyLeftHanded. -/
def LibinputSetPropertyLeftHanded (dev : ExtDevice) (present : DevicePresent)
    (val : PropValue) (checkonly : Bool) (opts : Options) : XRet × Options :=
  if val.format ≠ 8 ∨ val.size ≠ 1 ∨ val.vtype ≠ PropType.integer then
    (XRet.BadMatch, opts)
  else
    let data := val.dataBytes.headD 0
    if checkonly then
      if present = false then (XRet.BadMatch, opts)
      else if dev.left_handed_available = false ∧ data ≠ 0 then
        (XRet.BadValue, opts)
      else (XRet.Success, opts)
    else (XRet.Success, { opts with left_handed := data })

/-- Embeds LibinputSetPropertyScrollMethods. -/
def LibinputSetPropertyScrollMethods (dev : ExtDevice) (present : DevicePresent)
    (val : PropValue) (checkonly : Bool) (opts : Options) : XRet × Options :=
  if val.format ≠ 8 ∨ val.size ≠ 3 ∨ val.vtype ≠ PropType.integer then
    (XRet.BadMatch, opts)
  else
    let data := val.dataBytes
    let modes :=
      (if data.getD 0 0 ≠ 0 then SCROLL_2FG else 0) |||
      (if data.getD 1 0 ≠ 0 then SCROLL_EDGE else 0) |||
      (if data.getD 2 0 ≠ 0 then SCROLL_ON_BUTTON_DOWN else 0)
    if checkonly then
      if popcount modes > 1 then (XRet.BadValue, opts)
      else if present = false then (XRet.BadMatch, opts)
      else if modes ≠ 0 ∧ modes &&& dev.scroll_methods = 0 then
        (XRet.BadValue, opts)
      else (XRet.Success, opts)
    else (XRet.Success, { opts with scroll_method := modes })

/-- Embeds LibinputSetPropertyScrollButton. -/
def LibinputSetPropertyScrollButton (dev : ExtDevice) (present : DevicePresent)
    (val : PropValue) (checkonly : Bool) (opts : Options) : XRet × Options :=
  if val.format ≠ 32 ∨ val.size ≠ 1 ∨ val.vtype ≠ PropType.cardinal then
    (XRet.BadMatch, opts)
  else
    let data := val.dataCards.headD 0
    if checkonly then
      if present = false then (XRet.BadMatch, opts)
      else if data ≠ 0 ∧ dev.pointer_has_button (btn_xorg2linux data) = false then
        (XRet.BadValue, opts)
      else (XRet.Success, opts)
    else (XRet.Success, { opts with scroll_button := data })

/-- Embeds LibinputSetPropertyClickMethod. -/
def LibinputSetPropertyClickMethod (dev : ExtDevice) (present : DevicePresent)
    (val : PropValue) (checkonly : Bool) (opts : Options) : XRet × Options :=
  if val.format ≠ 8 ∨ val.size ≠ 2 ∨ val.vtype ≠ PropType.integer then
    (XRet.BadMatch, opts)
  else
    let data := val.dataBytes
    let modes :=
      (if data.getD 0 0 ≠ 0 then CLICK_METHOD_BUTTON_AREAS else 0) |||
      (if data.getD 1 0 ≠ 0 then CLICK_METHOD_CLICKFINGER else 0)
    if checkonly then
      if popcount modes > 1 then (XRet.BadValue, opts)
      else if present = false then (XRet.BadMatch, opts)
      else if modes ≠ 0 ∧ modes &&& dev.click_methods = 0 then
        (XRet.BadValue, opts)
      else (XRet.Success, opts)
    else (XRet.Success, { opts with click_method := modes })

/-- Embeds LibinputSetPropertyMiddleEmulation. -/
def LibinputSetPropertyMiddleEmulation (dev : ExtDevice) (present : DevicePresent)
    (val : PropValue) (checkonly : Bool) (opts : Options) : XRet × Options :=
  if val.format ≠ 8 ∨ val.size ≠ 1 ∨ val.vtype ≠ PropType.integer then
    (XRet.BadMatch, opts)
  else
    let data := val.dataBytes.headD 0
    if checkonly then
      if data ≠ 0 ∧ data ≠ 1 then (XRet.BadValue, opts)
      else if present = false then (XRet.BadMatch, opts)
      else if dev.middle_emulation_available = false then (XRet.BadMatch, opts)
      else (XRet.Success, opts)
    else (XRet.Success, { opts with middle_emulation := data })

/-- Embeds LibinputSetPropertyHalfkey. -/
def LibinputSetPropertyHalfkey (dev : ExtDevice) (present : DevicePresent)
    (val : PropValue) (checkonly : Bool) (opts : Options) : XRet × Options :=
  if val.format ≠ 8 ∨ val.size ≠ 1 ∨ val.vtype ≠ PropType.integer then
    (XRet.BadMatch, opts)
  else
    let data := val.dataBytes.headD 0
    if checkonly then
      if data ≠ 0 ∧ data ≠ 1 then (XRet.BadValue, opts)
      else if present = false then (XRet.BadMatch, opts)
      else if dev.halfkey_available = false then (XRet.BadMatch, opts)
      else (XRet.Success, opts)
    else (XRet.Success, { opts with halfkey := data })

/-- The property atoms the dispatcher compares against.  The unknown
case stands for any atom that is none of the interned driver
properties. -/
inductive PropAtom where
  | tap
  | tap_default
  | tap_drag_lock
  | tap_drag_lock_default
  | calibration
  | calibration_default
  | accel
  | accel_default
  | natural_scroll
  | natural_scroll_default
  | sendevents_available
  | sendevents_enabled
  | sendevents_default
  | left_handed
  | left_handed_default
  | scroll_methods_available
  | scroll_method_enabled
  | scroll_method_default
  | scroll_button
  | scroll_button_default
  | click_methods_available
  | click_method_enabled
  | click_method_default
  | middle_emulation
  | middle_emulation_default
  | halfkey
  | halfkey_default
  | device
  | product_id
  | unknown
deriving DecidableEq, Repr

/-- Embeds LibinputSetProperty: dispatch on the atom, then apply the
configuration on a committed (non-checkonly, successful) write.
LibinputApplyConfig pushes the option set into the libinput device
and logs failures; it reads but never writes driver options, so the
returned option set is the one produced by the handler. -/
def LibinputSetProperty (dev : ExtDevice) (present : DevicePresent)
    (atom : PropAtom) (val : PropValue) (checkonly : Bool) (opts : Options) :
    XRet × Options :=
  match atom with
  | PropAtom.tap => LibinputSetPropertyTap dev present val checkonly opts
  | PropAtom.tap_drag_lock =>
    LibinputSetPropertyTapDragLock dev present val checkonly opts
  | PropAtom.calibration =>
    LibinputSetPropertyCalibration dev present val checkonly opts
  | PropAtom.accel => LibinputSetPropertyAccel dev present val checkonly opts
  | PropAtom.natural_scroll =>
    LibinputSetPropertyNaturalScroll dev present val checkonly opts
  | PropAtom.sendevents_available => (XRet.BadAccess, opts)
  | PropAtom.sendevents_enabled =>
    LibinputSetPropertySendEvents dev present val checkonly opts
  | PropAtom.left_handed =>
    LibinputSetPropertyLeftHanded dev present val checkonly opts
  | PropAtom.scroll_methods_available => (XRet.BadAccess, opts)
  | PropAtom.scroll_method_enabled =>
    LibinputSetPropertyScrollMethods dev present val checkonly opts
  | PropAtom.scroll_button =>
    LibinputSetPropertyScrollButton dev present val checkonly opts
  | PropAtom.click_methods_available => (XRet.BadAccess, opts)
  | PropAtom.click_method_enabled =>
    LibinputSetPropertyClickMethod dev present val checkonly opts
  | PropAtom.middle_emulation =>
    LibinputSetPropertyMiddleEmulation dev present val checkonly opts
  | PropAtom.halfkey => LibinputSetPropertyHalfkey dev present val checkonly opts
  | PropAtom.device => (XRet.BadAccess, opts)
  | PropAtom.product_id => (XRet.BadAccess, opts)
  | PropAtom.tap_default => (XRet.BadAccess, opts)
  | PropAtom.tap_drag_lock_default => (XRet.BadAccess, opts)
  | PropAtom.calibration_default => (XRet.BadAccess, opts)
  | PropAtom.accel_default => (XRet.BadAccess, opts)
  | PropAtom.natural_scroll_default => (XRet.BadAccess, opts)
  | PropAtom.sendevents_default => (XRet.BadAccess, opts)
  | PropAtom.left_handed_default => (XRet.BadAccess, opts)
  | PropAtom.scroll_method_default => (XRet.BadAccess, opts)
  | PropAtom.scroll_button_default => (XRet.BadAccess, opts)
  | PropAtom.click_method_default => (XRet.BadAccess, opts)
  | PropAtom.middle_emulation_default => (XRet.BadAccess, opts)
  | PropAtom.halfkey_default => (XRet.BadAccess, opts)
  | PropAtom.unknown => (XRet.Success, opts)

/-! ## Concrete instances used to evaluate the model -/

/-- A device reporting no configurable capability at all. -/
def absentCapsDevice : ExtDevice :=
  { tap_finger_count := 0, tap_enabled := false, tap_set_ok := fun _ => false,
    tap_drag_lock_enabled := false, tap_drag_lock_set_ok := fun _ => false,
    accel_available := false, accel_speed := 0, accel_set_ok := fun _ => false,
    natural_scroll_available := false, natural_scroll_enabled := false,
    natural_scroll_set_ok := fun _ => false,
    sendevents_modes := 0, sendevents_mode := 0,
    sendevents_set_ok := fun _ => false,
    left_handed_available := false, left_handed := false,
    left_handed_set_ok := fun _ => false,
    scroll_methods := 0, scroll_method := 0, scroll_button := 0,
    scroll_button_set_ok := fun _ => false,
    click_methods := 0, click_method := 0,
    middle_emulation_available := false, middle_emulation_default := false,
    middle_emulation_enabled := false, middle_emulation_set_ok := fun _ => false,
    halfkey_available := false, halfkey_default := false,
    halfkey_enabled := false, halfkey_set_ok := fun _ => false,
    calibration_has_matrix := false, calibration_matrix := fun _ => 0,
    calibration_set_ok := fun _ => false,
    pointer_has_button := fun _ => false }

/-- A device supporting calibration, with the identity matrix as its
current matrix and a set call that always succeeds. -/
def calibDevice : ExtDevice :=
  { absentCapsDevice with
    calibration_has_matrix := true,
    calibration_matrix := fun i => if i = 0 ∨ i = 4 then 1 else 0,
    calibration_set_ok := fun _ => true }

/-- A device with tapping, two scroll methods (two-finger and edge),
one click method and the other boolean capabilities available. -/
def richCapsDevice : ExtDevice :=
  { absentCapsDevice with
    tap_finger_count := 2, tap_set_ok := fun _ => true,
    tap_drag_lock_set_ok := fun _ => true,
    accel_available := true, accel_set_ok := fun _ => true,
    natural_scroll_available := true, natural_scroll_set_ok := fun _ => true,
    left_handed_available := true, left_handed_set_ok := fun _ => true,
    scroll_methods := SCROLL_2FG ||| SCROLL_EDGE,
    click_methods := CLICK_METHOD_BUTTON_AREAS,
    middle_emulation_available := true,
    middle_emulation_set_ok := fun _ => true,
    halfkey_available := true, halfkey_set_ok := fun _ => true,
    pointer_has_button := fun b => decide (b = BTN_LEFT) }

/-- A property value of format 8, type INTEGER, with the given byte
payload. -/
def mkVal8 (bytes : List Nat) : PropValue :=
  { format := 8, size := bytes.length, vtype := PropType.integer,
    dataBytes := bytes, dataCards := [], dataFloats := [] }

/-- A property value of format 32, type CARDINAL, with the given
payload. -/
def mkVal32 (cards : List Nat) : PropValue :=
  { format := 32, size := cards.length, vtype := PropType.cardinal,
    dataBytes := [], dataCards := cards, dataFloats := [] }

/-- A property value of format 32, float type, with the given
payload. -/
def mkValFloat (floats : List ℚ) : PropValue :=
  { format := 32, size := floats.length, vtype := PropType.floatType,
    dataBytes := [], dataCards := [], dataFloats := floats }

/-- A sample option set. -/
def opts0 : Options :=
  { tapping := 0, tap_drag_lock := 0, matrix := [1, 0, 0, 0, 1, 0, 0, 0, 1],
    speed := 0, natural_scrolling := 0, sendevents := 0, left_handed := 0,
    scroll_method := 0, scroll_button := 0, click_method := 0,
    middle_emulation := 0, halfkey := 0 }

/-! ## Helper lemmas -/

/-- Value of the default branch of btn_xorg2linux: as unsigned
arithmetic, b - 8 + BTN_SIDE equals (b + 267) mod 2 ^ 32. -/
theorem btn_xorg2linux_default (b : Nat) (h : 4 ≤ b) :
    btn_xorg2linux b = (b + 267) % 4294967296 := by
  unfold btn_xorg2linux
  rw [if_neg (by omega), if_neg (by omega), if_neg (by omega),
    if_neg (by omega)]
  unfold U32 BTN_SIDE
  norm_num
  omega

/-- Value of the default branch of btn_linux2xorg: as unsigned
arithmetic, 8 + c - BTN_SIDE equals (c + 4294967029) mod 2 ^ 32. -/
theorem btn_linux2xorg_default (c : Nat) (h0 : c ≠ 0) (h1 : c ≠ 272)
    (h2 : c ≠ 274) (h3 : c ≠ 273) :
    btn_linux2xorg c = (c + 4294967029) % 4294967296 := by
  unfold btn_linux2xorg BTN_LEFT BTN_MIDDLE BTN_RIGHT
  rw [if_neg h0, if_neg h1, if_neg h2, if_neg h3]
  unfold U32 BTN_SIDE
  norm_num
  omega

/-! ## Claim theorems -/

/-- C9: every button event maps the native code through
btn_linux2xorg — code 0 to 0, BTN_LEFT to 1, BTN_MIDDLE to 2,
BTN_RIGHT to 3, and any other code c to the unsigned value of
8 + c - BTN_SIDE (which is 8 + (c - BTN_SIDE) for codes at or above
the side-button base) — and the press/release state is forwarded with
the mapped button. -/
theorem C9_button_mapping :
    btn_linux2xorg 0 = 0 ∧ btn_linux2xorg BTN_LEFT = 1 ∧
    btn_linux2xorg BTN_MIDDLE = 2 ∧ btn_linux2xorg BTN_RIGHT = 3 ∧
    (∀ c : Nat, c < U32 → c ≠ 0 → c ≠ BTN_LEFT → c ≠ BTN_MIDDLE →
      c ≠ BTN_RIGHT →
      btn_linux2xorg c = (8 + c + (U32 - BTN_SIDE)) % U32 ∧
      (BTN_SIDE ≤ c → btn_linux2xorg c = 8 + (c - BTN_SIDE))) ∧
    (∀ e : ButtonEvent,
      xf86libinput_handle_button e = (btn_linux2xorg e.button, e.pressed)) := by
  refine ⟨by decide, by decide, by decide, by decide, ?_, fun e => rfl⟩
  intro c hlt h0 h1 h2 h3
  have h1' : c ≠ 272 := by simpa [BTN_LEFT] using h1
  have h2' : c ≠ 274 := by simpa [BTN_MIDDLE] using h2
  have h3' : c ≠ 273 := by simpa [BTN_RIGHT] using h3
  have hd := btn_linux2xorg_default c h0 h1' h2' h3'
  have hlt' : c < 4294967296 := by simpa [U32] using hlt
  constructor
  · rw [hd]
    unfold U32 BTN_SIDE
    norm_num
    omega
  · intro hge
    have hge' : 275 ≤ c := by simpa [BTN_SIDE] using hge
    rw [hd]
    unfold BTN_SIDE
    omega

/-- C9 witness: the theorem applied to the side-button code 280,
which maps to 8 + (280 - BTN_SIDE) = 13. -/
theorem C9_button_mapping_witness :
    btn_linux2xorg 280 = (8 + 280 + (U32 - BTN_SIDE)) % U32 ∧
    btn_linux2xorg 280 = 8 + (280 - BTN_SIDE) := by
  have h := C9_button_mapping.2.2.2.2.1 280 (by decide) (by decide)
    (by decide) (by decide) (by decide)
  exact ⟨h.1, h.2 (by decide)⟩

/-- C10 counterexample: the consumer button number 4294967029
(= 2 ^ 32 - 267) is at least 8, yet the round trip through
btn_xorg2linux and btn_linux2xorg collapses it to 0, because the
unsigned computation b - 8 + BTN_SIDE wraps to 0, which
btn_linux2xorg then maps through its special zero case. -/
theorem C10_counterexample :
    btn_xorg2linux 4294967029 = 0 ∧
    btn_linux2xorg (btn_xorg2linux 4294967029) = 0 ∧
    8 ≤ 4294967029 ∧
    btn_linux2xorg (btn_xorg2linux 4294967029) ≠ 4294967029 := by
  refine ⟨by decide, by decide, by decide, by decide⟩

/-- C10 amended: the two conversions are mutually inverse on the
claimed domains except at the single wrap-around point b =
2 ^ 32 - 267 (where btn_xorg2linux wraps to 0): for every consumer
button number b < 2 ^ 32 in {0,1,2,3} or with 8 ≤ b and
b ≠ 2 ^ 32 - 267, btn_linux2xorg (btn_xorg2linux b) = b; and for
every native code c < 2 ^ 32 in {0, BTN_LEFT, BTN_MIDDLE, BTN_RIGHT}
or with BTN_SIDE ≤ c, btn_xorg2linux (btn_linux2xorg c) = c. -/
theorem C10_amended :
    (∀ b : Nat, b < U32 →
      (b = 0 ∨ b = 1 ∨ b = 2 ∨ b = 3 ∨ (8 ≤ b ∧ b ≠ U32 - 267)) →
      btn_linux2xorg (btn_xorg2linux b) = b) ∧
    (∀ c : Nat, c < U32 →
      (c = 0 ∨ c = BTN_LEFT ∨ c = BTN_MIDDLE ∨ c = BTN_RIGHT ∨ BTN_SIDE ≤ c) →
      btn_xorg2linux (btn_linux2xorg c) = c) := by
  constructor
  · intro b hb hcase
    have hb' : b < 4294967296 := by simpa [U32] using hb
    rcases hcase with h | h | h | h | ⟨h8, hne⟩
    · subst h; decide
    · subst h; decide
    · subst h; decide
    · subst h; decide
    · have hne' : b ≠ 4294967029 := by simpa [U32] using hne
      rw [btn_xorg2linux_default b (by omega)]
      rw [btn_linux2xorg_default ((b + 267) % 4294967296) (by omega)
        (by omega) (by omega) (by omega)]
      omega
  · intro c hc hcase
    have hc' : c < 4294967296 := by simpa [U32] using hc
    rcases hcase with h | h | h | h | h
    · subst h; decide
    · subst h; decide
    · subst h; decide
    · subst h; decide
    · have h' : 275 ≤ c := by simpa [BTN_SIDE] using h
      rw [btn_linux2xorg_default c (by omega) (by omega) (by omega)
        (by omega)]
      rw [btn_xorg2linux_default ((c + 4294967029) % 4294967296) (by omega)]
      omega

/-- C10 amended witness: the round trips at consumer button 10 and
native code 276. -/
theorem C10_amended_witness :
    btn_linux2xorg (btn_xorg2linux 10) = 10 ∧
    btn_xorg2linux (btn_linux2xorg 276) = 276 :=
  ⟨C10_amended.1 10 (by decide)
    (Or.inr (Or.inr (Or.inr (Or.inr ⟨by decide, by decide⟩)))),
   C10_amended.2 276 (by decide)
    (Or.inr (Or.inr (Or.inr (Or.inr (by decide)))))⟩

/-- C4: a wheel-sourced scroll event forwards, on each axis it
carries, exactly the discrete step count times the step distance of
that axis; finger- and continuous-sourced events forward their
linear value unscaled; the handler is stateless, so n repetitions of
one wheel event forward a total of exactly n times the per-event
delta; the step distances are initialized to 15 for both axes. -/
theorem C4_wheel_scroll_exact :
    (∀ (vdist hdist : ℤ) (e : AxisEvent), e.source = AxisSource.wheel →
      xf86libinput_handle_axis vdist hdist e =
        some { vertical := if e.has_vertical then
                 some (e.vertical_discrete * (vdist : ℚ)) else none,
               horizontal := if e.has_horizontal then
                 some (e.horizontal_discrete * (hdist : ℚ)) else none }) ∧
    (∀ (vdist hdist : ℤ) (e : AxisEvent),
      e.source = AxisSource.finger ∨ e.source = AxisSource.continuous →
      xf86libinput_handle_axis vdist hdist e =
        some { vertical := if e.has_vertical then
                 some e.vertical_value else none,
               horizontal := if e.has_horizontal then
                 some e.horizontal_value else none }) ∧
    (∀ (S : ℤ) (N : ℚ) (n : Nat) (e : AxisEvent),
      e.source = AxisSource.wheel → e.has_vertical = true →
      e.vertical_discrete = N →
      ((List.replicate n e).map
        (fun ev => (((xf86libinput_handle_axis S S ev).bind
          AxisMask.vertical).getD 0))).sum = n * (N * (S : ℚ))) ∧
    pre_init_scroll_dist = (15, 15) := by
  refine ⟨?_, ?_, ?_, rfl⟩
  · intro vdist hdist e h
    cases e
    simp only at h
    subst h
    simp [xf86libinput_handle_axis]
  · intro vdist hdist e h
    cases e
    simp only at h
    rcases h with h | h <;> subst h <;> simp [xf86libinput_handle_axis]
  · intro S N n e hs hv hd
    cases e
    simp only at hs hv hd
    subst hs; subst hv; subst hd
    simp [List.map_replicate, List.sum_replicate, xf86libinput_handle_axis,
      nsmul_eq_mul]

/-- C4 witness: a wheel event with vertical discrete count 3 and step
distance 15 forwards a vertical delta of exactly 45. -/
theorem C4_wheel_scroll_exact_witness :
    xf86libinput_handle_axis 15 15
      { source := AxisSource.wheel, has_vertical := true,
        vertical_value := 0, vertical_discrete := 3,
        has_horizontal := false, horizontal_value := 0,
        horizontal_discrete := 0 } =
      some { vertical := some 45, horizontal := none } := by
  have h := C4_wheel_scroll_exact.1 15 15
    { source := AxisSource.wheel, has_vertical := true,
      vertical_value := 0, vertical_discrete := 3,
      has_horizontal := false, horizontal_value := 0,
      horizontal_discrete := 0 } rfl
  rw [h]
  norm_num

/-- C3: a property write dispatched with checkOnly = true leaves
the per-device option set unchanged, whatever the atom, value,
device capabilities and returned code, and repeating the check
returns the same result on the same option set. -/
theorem C3_checkonly_no_mutation :
    ∀ (dev : ExtDevice) (present : DevicePresent) (atom : PropAtom)
      (val : PropValue) (opts : Options),
      (LibinputSetProperty dev present atom val true opts).2 = opts ∧
      LibinputSetProperty dev present atom val true
          ((LibinputSetProperty dev present atom val true opts).2) =
        LibinputSetProperty dev present atom val true opts := by
  intro dev present atom val opts
  have h : (LibinputSetProperty dev present atom val true opts).2 = opts := by
    cases atom <;>
      simp only [LibinputSetProperty, LibinputSetPropertyTap,
        LibinputSetPropertyTapDragLock, LibinputSetPropertyCalibration,
        LibinputSetPropertyAccel, LibinputSetPropertyNaturalScroll,
        LibinputSetPropertySendEvents, LibinputSetPropertyLeftHanded,
        LibinputSetPropertyScrollMethods, LibinputSetPropertyScrollButton,
        LibinputSetPropertyClickMethod, LibinputSetPropertyMiddleEmulation,
        LibinputSetPropertyHalfkey] <;>
      (first | rfl | (split_ifs <;> rfl))
  exact ⟨h, by rw [h]⟩

/-- C7: a check-mode write to the scroll-method-enabled or
click-method-enabled property with more than one flag set is rejected
with BadValue; with zero or one flag set the multi-selection check
passes and the result is decided solely by the capability-support
check. -/
theorem C7_multiflag_bitset :
    (∀ (dev : ExtDevice) (b0 b1 b2 : Nat) (opts : Options) (modes : Nat),
      modes = ((if b0 ≠ 0 then SCROLL_2FG else 0) |||
               (if b1 ≠ 0 then SCROLL_EDGE else 0) |||
               (if b2 ≠ 0 then SCROLL_ON_BUTTON_DOWN else 0)) →
      (popcount modes > 1 →
        (LibinputSetPropertyScrollMethods dev true (mkVal8 [b0, b1, b2])
          true opts).1 = XRet.BadValue) ∧
      (popcount modes ≤ 1 →
        (LibinputSetPropertyScrollMethods dev true (mkVal8 [b0, b1, b2])
          true opts).1 =
          if modes ≠ 0 ∧ modes &&& dev.scroll_methods = 0 then XRet.BadValue
          else XRet.Success)) ∧
    (∀ (dev : ExtDevice) (b0 b1 : Nat) (opts : Options) (modes : Nat),
      modes = ((if b0 ≠ 0 then CLICK_METHOD_BUTTON_AREAS else 0) |||
               (if b1 ≠ 0 then CLICK_METHOD_CLICKFINGER else 0)) →
      (popcount modes > 1 →
        (LibinputSetPropertyClickMethod dev true (mkVal8 [b0, b1])
          true opts).1 = XRet.BadValue) ∧
      (popcount modes ≤ 1 →
        (LibinputSetPropertyClickMethod dev true (mkVal8 [b0, b1])
          true opts).1 =
          if modes ≠ 0 ∧ modes &&& dev.click_methods = 0 then XRet.BadValue
          else XRet.Success)) := by
  constructor
  · intro dev b0 b1 b2 opts modes hm
    have key : LibinputSetPropertyScrollMethods dev true (mkVal8 [b0, b1, b2])
        true opts =
        (if popcount modes > 1 then (XRet.BadValue, opts)
         else if modes ≠ 0 ∧ modes &&& dev.scroll_methods = 0 then
           (XRet.BadValue, opts)
         else (XRet.Success, opts)) := by
      subst hm
      simp [LibinputSetPropertyScrollMethods, mkVal8]
    constructor
    · intro h
      rw [key, if_pos h]
    · intro h
      rw [key, if_neg (by omega)]
      by_cases hc : modes ≠ 0 ∧ modes &&& dev.scroll_methods = 0 <;>
        simp [hc]
  · intro dev b0 b1 opts modes hm
    have key : LibinputSetPropertyClickMethod dev true (mkVal8 [b0, b1])
        true opts =
        (if popcount modes > 1 then (XRet.BadValue, opts)
         else if modes ≠ 0 ∧ modes &&& dev.click_methods = 0 then
           (XRet.BadValue, opts)
         else (XRet.Success, opts)) := by
      subst hm
      simp [LibinputSetPropertyClickMethod, mkVal8]
    constructor
    · intro h
      rw [key, if_pos h]
    · intro h
      rw [key, if_neg (by omega)]
      by_cases hc : modes ≠ 0 ∧ modes &&& dev.click_methods = 0 <;>
        simp [hc]

/-- C7 witness: a scroll-method write selecting both two-finger and
edge is rejected with BadValue on a device supporting both. -/
theorem C7_multiflag_bitset_witness :
    (LibinputSetPropertyScrollMethods richCapsDevice true
      (mkVal8 [1, 1, 0]) true opts0).1 = XRet.BadValue :=
  (C7_multiflag_bitset.1 richCapsDevice 1 1 0 opts0 _ rfl).1 (by decide)

/-- C8: each option-resolution path forces the fixed disabled/no-op
value — false for booleans, 0 for acceleration speed, the none/zero
enumeration value, the identity calibration matrix — whenever the
device lacks the corresponding capability, regardless of any
user-supplied override. -/
theorem C8_unsupported_forced_disabled :
    (∀ (dev : ExtDevice) (opt : Option Bool), dev.tap_finger_count = 0 →
      xf86libinput_parse_tap_option dev opt = false) ∧
    (∀ (dev : ExtDevice) (opt : Option Bool), dev.tap_finger_count = 0 →
      xf86libinput_parse_tap_drag_lock_option dev opt = false) ∧
    (∀ (dev : ExtDevice) (opt : Option ℚ), dev.accel_available = false →
      xf86libinput_parse_accel_option dev opt = 0) ∧
    (∀ (dev : ExtDevice) (opt : Option Bool),
      dev.natural_scroll_available = false →
      xf86libinput_parse_natscroll_option dev opt = false) ∧
    (∀ (dev : ExtDevice) (opt : Option String),
      dev.sendevents_modes = SEND_EVENTS_ENABLED →
      xf86libinput_parse_sendevents_option dev opt = SEND_EVENTS_ENABLED) ∧
    (∀ (dev : ExtDevice) (opt : Option Bool),
      dev.left_handed_available = false →
      xf86libinput_parse_lefthanded_option dev opt = false) ∧
    (∀ (dev : ExtDevice) (opt : Option String),
      dev.scroll_methods = SCROLL_NO_SCROLL →
      xf86libinput_parse_scroll_option dev opt = SCROLL_NO_SCROLL) ∧
    (∀ (dev : ExtDevice) (opt : Option Nat),
      dev.scroll_methods &&& SCROLL_ON_BUTTON_DOWN = 0 →
      xf86libinput_parse_scrollbutton_option dev opt = 0) ∧
    (∀ (dev : ExtDevice) (opt : Option String),
      dev.click_methods = CLICK_METHOD_NONE →
      xf86libinput_parse_clickmethod_option dev opt = CLICK_METHOD_NONE) ∧
    (∀ (dev : ExtDevice) (opt : Option Bool),
      dev.middle_emulation_available = false →
      xf86libinput_parse_middleemulation_option dev opt = false) ∧
    (∀ (dev : ExtDevice) (opt : Option Bool), dev.halfkey_available = false →
      xf86libinput_parse_halfkey_option dev opt = false) ∧
    (∀ (dev : ExtDevice) (opt : Option (List ℚ)),
      dev.calibration_has_matrix = false →
      xf86libinput_parse_calibration_option dev opt =
        [1, 0, 0, 0, 1, 0, 0, 0, 1]) := by
  refine ⟨fun dev opt h => by simp [xf86libinput_parse_tap_option, h],
    fun dev opt h => by simp [xf86libinput_parse_tap_drag_lock_option, h],
    fun dev opt h => by simp [xf86libinput_parse_accel_option, h],
    fun dev opt h => by simp [xf86libinput_parse_natscroll_option, h],
    fun dev opt h => by simp [xf86libinput_parse_sendevents_option, h],
    fun dev opt h => by simp [xf86libinput_parse_lefthanded_option, h],
    fun dev opt h => by simp [xf86libinput_parse_scroll_option, h],
    fun dev opt h => by simp [xf86libinput_parse_scrollbutton_option, h],
    fun dev opt h => by simp [xf86libinput_parse_clickmethod_option, h],
    fun dev opt h => by simp [xf86libinput_parse_middleemulation_option, h],
    fun dev opt h => by simp [xf86libinput_parse_halfkey_option, h],
    fun dev opt h => by simp [xf86libinput_parse_calibration_option, h]⟩

/-- C8 witness: the tap option on a device without tap support
resolves to false even under a user override of true. -/
theorem C8_unsupported_forced_disabled_witness :
    absentCapsDevice.tap_finger_count = 0 ∧
    xf86libinput_parse_tap_option absentCapsDevice (some true) = false :=
  ⟨rfl, C8_unsupported_forced_disabled.1 absentCapsDevice (some true) rfl⟩

/-- C6 counterexample: on a device without tap support, a check-mode
tap write with a well-formed value 1 is rejected with BadMatch — the
very same code the handler returns for a format violation — so the
capability-mismatch rejection is not distinct from the format error
code. -/
theorem C6_counterexample :
    absentCapsDevice.tap_finger_count = 0 ∧
    (LibinputSetPropertyTap absentCapsDevice true (mkVal8 [1]) true
      opts0).1 = XRet.BadMatch ∧
    (LibinputSetPropertyTap absentCapsDevice true
      { format := 16, size := 1, vtype := PropType.integer,
        dataBytes := [1], dataCards := [], dataFloats := [] } true
      opts0).1 = XRet.BadMatch := by
  refine ⟨rfl, by decide, by decide⟩

/-- C6 amended: a check-mode write to a capability-gated option on a
device lacking the capability is rejected for tap, but with BadMatch,
the same code as a format violation; for left-handed and scroll-button
the rejection code is BadValue, distinct from the BadMatch format
code, and only applies to nonzero requested values — writes of 0 are
accepted even without the capability. -/
theorem C6_amended :
    (∀ (dev : ExtDevice) (b : Nat) (opts : Options),
      dev.tap_finger_count = 0 → b = 0 ∨ b = 1 →
      (LibinputSetPropertyTap dev true (mkVal8 [b]) true opts).1 =
        XRet.BadMatch) ∧
    (∀ (dev : ExtDevice) (b : Nat) (opts : Options),
      dev.left_handed_available = false → b ≠ 0 →
      (LibinputSetPropertyLeftHanded dev true (mkVal8 [b]) true opts).1 =
        XRet.BadValue) ∧
    (∀ (dev : ExtDevice) (opts : Options),
      dev.left_handed_available = false →
      (LibinputSetPropertyLeftHanded dev true (mkVal8 [0]) true opts).1 =
        XRet.Success) ∧
    (∀ (dev : ExtDevice) (b : Nat) (opts : Options), b ≠ 0 →
      dev.pointer_has_button (btn_xorg2linux b) = false →
      (LibinputSetPropertyScrollButton dev true (mkVal32 [b]) true opts).1 =
        XRet.BadValue) ∧
    (∀ (dev : ExtDevice) (opts : Options),
      (LibinputSetPropertyScrollButton dev true (mkVal32 [0]) true opts).1 =
        XRet.Success) ∧
    XRet.BadValue ≠ XRet.BadMatch := by
  refine ⟨?_, ?_, ?_, ?_, ?_, by decide⟩
  · intro dev b opts hcap hb
    rcases hb with h | h <;> subst h <;>
      simp [LibinputSetPropertyTap, mkVal8, hcap]
  · intro dev b opts hcap hb
    simp [LibinputSetPropertyLeftHanded, mkVal8, hcap, hb]
  · intro dev opts hcap
    simp [LibinputSetPropertyLeftHanded, mkVal8, hcap]
  · intro dev b opts hb hbtn
    simp [LibinputSetPropertyScrollButton, mkVal32, hb, hbtn]
  · intro dev opts
    simp [LibinputSetPropertyScrollButton, mkVal32]

/-- C6 amended witness: the theorem applied to a device without tap
support and the value 1. -/
theorem C6_amended_witness :
    (LibinputSetPropertyTap absentCapsDevice true (mkVal8 [1]) true
      opts0).1 = XRet.BadMatch :=
  C6_amended.1 absentCapsDevice 1 opts0 rfl (Or.inr rfl)

/-- C2 counterexample: with calibration supported and a user string
parsing to the nine values 1 0 0 0 1 0 7 8 9, the resolved matrix
adopts all nine user entries, so its last three entries are 7, 8, 9
rather than the claimed fixed 0, 0, 1. -/
theorem C2_counterexample :
    xf86libinput_parse_calibration_option calibDevice
      (some [1, 0, 0, 0, 1, 0, 7, 8, 9]) = [1, 0, 0, 0, 1, 0, 7, 8, 9] ∧
    ([1, 0, 0, 0, 1, 0, 7, 8, 9] : List ℚ).drop 6 ≠ [0, 0, 1] := by
  exact ⟨by decide, by decide⟩

/-- C2 amended: resolving the calibration option keeps the device
matrix — whose last three entries are 0, 0, 1 — when no user string
is given or when it parses to fewer than nine values; when it parses
to nine values accepted by the device, the resolved matrix adopts all
nine user entries, the first six and the last three alike; on a
supported device with default matrix 1 0 0 0 1 0 0 0 1 and user input
parsing to 0.5 0 0 0 1 0 0 0 1 the resolved matrix is
0.5 0 0 0 1 0 0 0 1. -/
theorem C2_amended :
    (∀ dev : ExtDevice, dev.calibration_has_matrix = true →
      xf86libinput_parse_calibration_option dev none =
        (List.ofFn fun i : Fin 6 => dev.calibration_matrix i) ++ [0, 0, 1]) ∧
    (∀ (dev : ExtDevice) (vals : List ℚ), dev.calibration_has_matrix = true →
      vals.length < 9 →
      xf86libinput_parse_calibration_option dev (some vals) =
        (List.ofFn fun i : Fin 6 => dev.calibration_matrix i) ++ [0, 0, 1]) ∧
    (∀ (dev : ExtDevice) (vals : List ℚ), dev.calibration_has_matrix = true →
      9 ≤ vals.length → dev.calibration_set_ok (vals.take 9) = true →
      xf86libinput_parse_calibration_option dev (some vals) = vals.take 9) ∧
    xf86libinput_parse_calibration_option calibDevice
      (some [1/2, 0, 0, 0, 1, 0, 0, 0, 1]) =
      [1/2, 0, 0, 0, 1, 0, 0, 0, 1] := by
  refine ⟨?_, ?_, ?_,
    by simp [xf86libinput_parse_calibration_option, calibDevice,
      absentCapsDevice]⟩
  · intro dev h
    simp [xf86libinput_parse_calibration_option, h]
  · intro dev vals h hlen
    have hne : min 9 vals.length ≠ 9 := by omega
    simp [xf86libinput_parse_calibration_option, h, hne]
  · intro dev vals h hlen hset
    have heq : min 9 vals.length = 9 := by omega
    simp [xf86libinput_parse_calibration_option, h, heq, hset]

/-- C2 amended witness: a three-value user string on the calibration
device keeps the device matrix extended with 0, 0, 1. -/
theorem C2_amended_witness :
    xf86libinput_parse_calibration_option calibDevice
      (some [5, 6, 7]) =
      (List.ofFn fun i : Fin 6 => calibDevice.calibration_matrix i) ++
        [0, 0, 1] :=
  C2_amended.2.1 calibDevice [5, 6, 7] rfl (by decide)

/-! ## Touch-handler lemmas -/

theorem touchRun_cons (st : TouchState) (e : TouchEvent)
    (evs : List TouchEvent) :
    touchRun st (e :: evs) =
      touchRun (xf86libinput_handle_touch st e).1 evs := rfl

theorem touchRun_append (st : TouchState) (a b : List TouchEvent) :
    touchRun st (a ++ b) = touchRun (touchRun st a) b := by
  simp [touchRun, List.foldl_append]

theorem countDowns_cons (e : TouchEvent) (evs : List TouchEvent) :
    countDowns (e :: evs) =
      countDowns evs + if e.etype = TouchEventType.down then 1 else 0 := by
  simp [countDowns, List.countP_cons]

theorem countDowns_append (a b : List TouchEvent) :
    countDowns (a ++ b) = countDowns a + countDowns b := by
  simp [countDowns, List.countP_append]

/-- The handler leaves the state unchanged on events that are not
touch-downs. -/
theorem handle_touch_fst_of_not_down (st : TouchState) (e : TouchEvent)
    (he : ¬ e.etype = TouchEventType.down) :
    (xf86libinput_handle_touch st e).1 = st := by
  cases hety : e.etype
  · exact absurd hety he
  · simp [xf86libinput_handle_touch, hety]
  · simp [xf86libinput_handle_touch, hety]
  · simp [xf86libinput_handle_touch, hety]

/-- The handler state after a touch-down. -/
theorem handle_touch_fst_of_down (st : TouchState) (e : TouchEvent)
    (he : e.etype = TouchEventType.down) :
    (xf86libinput_handle_touch st e).1 =
      { next_touchid := (st.next_touchid + 1) % U32,
        touchids := Function.update st.touchids e.slot st.next_touchid } := by
  simp [xf86libinput_handle_touch, he]

/-- The counter after a sequence of events is the starting counter
plus the number of touch-downs, modulo 2 ^ 32. -/
theorem touchRun_next_touchid (evs : List TouchEvent) (st : TouchState)
    (h : st.next_touchid < U32) :
    (touchRun st evs).next_touchid =
      (st.next_touchid + countDowns evs) % U32 := by
  induction evs generalizing st with
  | nil =>
    simp [touchRun, countDowns, Nat.mod_eq_of_lt h]
  | cons e rest ih =>
    rw [touchRun_cons]
    by_cases he : e.etype = TouchEventType.down
    · have hd1 : (xf86libinput_handle_touch st e).1.next_touchid =
          (st.next_touchid + 1) % U32 := by
        rw [handle_touch_fst_of_down st e he]
      rw [ih _ (by rw [hd1]; exact Nat.mod_lt _ (by decide))]
      rw [hd1]
      rw [countDowns_cons, if_pos he]
      have hU : U32 = 4294967296 := by norm_num [U32]
      rw [hU]
      omega
    · rw [handle_touch_fst_of_not_down st e he]
      rw [ih _ h]
      rw [countDowns_cons, if_neg he, Nat.add_zero]

/-- A slot entry is unchanged by a sequence of events containing no
touch-down on that slot. -/
theorem touchRun_touchids_stable (evs : List TouchEvent) (st : TouchState)
    (s : Fin TOUCH_MAX_SLOTS)
    (h : ∀ e ∈ evs, ¬(e.etype = TouchEventType.down ∧ e.slot = s)) :
    (touchRun st evs).touchids s = st.touchids s := by
  induction evs generalizing st with
  | nil => rfl
  | cons e rest ih =>
    rw [touchRun_cons]
    rw [ih _ (fun e' he' => h e' (List.mem_cons_of_mem _ he'))]
    have he := h e (List.mem_cons_self _ _)
    by_cases hety : e.etype = TouchEventType.down
    · have hslot : s ≠ e.slot := fun hs => he ⟨hety, hs.symm⟩
      rw [handle_touch_fst_of_down st e hety]
      exact Function.update_noteq hslot _ _
    · rw [handle_touch_fst_of_not_down st e hety]

/-- A touch-down posts the counter value at the time of the down. -/
theorem postedTouchId_down (st : TouchState) (e : TouchEvent)
    (h : e.etype = TouchEventType.down) :
    postedTouchId st e = some st.next_touchid := by
  simp [postedTouchId, xf86libinput_handle_touch, h]

/-- A touch-up posts the current entry of its slot. -/
theorem postedTouchId_up (st : TouchState) (e : TouchEvent)
    (h : e.etype = TouchEventType.up) :
    postedTouchId st e = some (st.touchids e.slot) := by
  simp [postedTouchId, xf86libinput_handle_touch, h]

/-- C1 counterexample: the slot table is a process-wide static shared
across devices.  Touch-down on device 0 slot 2 (posted with identity
0), then touch-down on device 1 slot 2 (posted with identity 1), then
touch-up on device 0 slot 2: the up is posted with identity 1 — the
identity of the still-open device-1 touch — and not with identity 0
assigned at the most recent down of device 0 on that slot. -/
theorem C1_counterexample :
    touchTrace initialTouchState
      [{ device := 0, etype := TouchEventType.down, slot := 2, x := 0, y := 0 },
       { device := 1, etype := TouchEventType.down, slot := 2, x := 0, y := 0 },
       { device := 0, etype := TouchEventType.up, slot := 2, x := 0, y := 0 }] =
      [some { device := 0, touchid := 0, phase := TouchPhase.begin,
              coords := some (0, 0) },
       some { device := 1, touchid := 1, phase := TouchPhase.begin,
              coords := some (0, 0) },
       some { device := 0, touchid := 1, phase := TouchPhase.finish,
              coords := none }] ∧
    (1 : Nat) ≠ 0 := by
  exact ⟨rfl, by decide⟩

/-- C1 amended: starting from the initial state, (a) any two
touch-down events in a dispatch sequence with at most 2 ^ 32 downs in
total are posted with strictly increasing (hence distinct)
identities, whatever their devices and slots; and (b) a touch-up is
posted with the identity assigned at the most recent touch-down on
the same slot by any device — the slot table being process-wide, the
posted identity matches the same-device down only when no other
device pressed that slot in between. -/
theorem C1_amended :
    (∀ (pre mid post : List TouchEvent) (d1 d2 : TouchEvent) (i j : Nat),
      d1.etype = TouchEventType.down → d2.etype = TouchEventType.down →
      countDowns (pre ++ d1 :: (mid ++ d2 :: post)) ≤ U32 →
      postedTouchId (touchRun initialTouchState pre) d1 = some i →
      postedTouchId (touchRun initialTouchState (pre ++ d1 :: mid)) d2 =
        some j →
      i < j) ∧
    (∀ (pre mid : List TouchEvent) (d u : TouchEvent),
      d.etype = TouchEventType.down → u.etype = TouchEventType.up →
      u.slot = d.slot →
      (∀ e ∈ mid, ¬(e.etype = TouchEventType.down ∧ e.slot = d.slot)) →
      postedTouchId (touchRun initialTouchState (pre ++ d :: mid)) u =
        postedTouchId (touchRun initialTouchState pre) d) := by
  constructor
  · intro pre mid post d1 d2 i j h1 h2 hbound hi hj
    rw [postedTouchId_down _ _ h1] at hi
    rw [postedTouchId_down _ _ h2] at hj
    have hpre : (touchRun initialTouchState pre).next_touchid =
        countDowns pre % U32 := by
      rw [touchRun_next_touchid pre initialTouchState (by decide)]
      simp [initialTouchState]
    have hmid : (touchRun initialTouchState (pre ++ d1 :: mid)).next_touchid =
        (countDowns pre + (countDowns mid + 1)) % U32 := by
      rw [touchRun_next_touchid _ _ (by decide)]
      simp [initialTouchState]
      rw [countDowns_append, countDowns_cons, if_pos h1]
    rw [hpre] at hi
    rw [hmid] at hj
    simp only [Option.some.injEq] at hi hj
    rw [countDowns_append, countDowns_cons, if_pos h1, countDowns_append,
      countDowns_cons, if_pos h2] at hbound
    have hU : U32 = 4294967296 := by norm_num [U32]
    rw [hU] at hi hj hbound
    omega
  · intro pre mid d u hd hu hslot hmid
    rw [postedTouchId_up _ _ hu, postedTouchId_down _ _ hd, hslot]
    rw [touchRun_append, touchRun_cons]
    rw [touchRun_touchids_stable mid _ d.slot hmid]
    rw [handle_touch_fst_of_down _ d hd]
    simp [Function.update_same]

/-- C1 amended witness: two downs on slots 2 and 3 from the initial
state are posted with identities 0 and 1, and 0 < 1. -/
theorem C1_amended_witness :
    postedTouchId (touchRun initialTouchState [])
      { device := 0, etype := TouchEventType.down, slot := 2,
        x := 0, y := 0 } = some 0 ∧
    postedTouchId (touchRun initialTouchState
        ([] ++ { device := 0, etype := TouchEventType.down, slot := 2,
                 x := 0, y := 0 } :: []))
      { device := 0, etype := TouchEventType.down, slot := 3,
        x := 0, y := 0 } = some 1 ∧
    (0 : Nat) < 1 := by
  refine ⟨rfl, rfl, ?_⟩
  exact C1_amended.1 [] [] []
    { device := 0, etype := TouchEventType.down, slot := 2, x := 0, y := 0 }
    { device := 0, etype := TouchEventType.down, slot := 3, x := 0, y := 0 }
    0 1 rfl rfl (by decide) rfl rfl

/-- C5: on one device, touch-down on slot 2, then touch-down on
slot 5 with no intervening up, then touch-up on slot 2: the downs are
posted with the distinct identities 0 and 1 assigned in increasing
order, and the up for slot 2 is posted with identity 0 — the one of
slot 2, not the identity 1 of slot 5. -/
theorem C5_two_slot_scenario :
    touchTrace initialTouchState
      [{ device := 0, etype := TouchEventType.down, slot := 2, x := 0, y := 0 },
       { device := 0, etype := TouchEventType.down, slot := 5, x := 0, y := 0 },
       { device := 0, etype := TouchEventType.up, slot := 2, x := 0, y := 0 }] =
      [some { device := 0, touchid := 0, phase := TouchPhase.begin,
              coords := some (0, 0) },
       some { device := 0, touchid := 1, phase := TouchPhase.begin,
              coords := some (0, 0) },
       some { device := 0, touchid := 0, phase := TouchPhase.finish,
              coords := none }] ∧
    (0 : Nat) ≠ 1 ∧ (0 : Nat) < 1 := by
  exact ⟨rfl, by decide, by decide⟩

end XF86Libinput
